import Mathlib

/-!
Verification development for the marketplace backend
(`src/ecommerce_backend`): a shallow embedding of the offer/negotiation
state machine (`src/api/routers/offers.py`, `negotiations.py`), the swap
decision logic (`src/api/routers/swaps.py`), and the transaction ledger
(`src/api/routers/transactions.py`, `webhooks.py`,
`src/services/payments.py`).

Conventions of the embedding:
- UUIDs become `Nat` identifiers; `Decimal`/`float` amounts become `Rat`
  (exact rationals; every comparison in the source is numeric).
- Each route handler becomes a function `Db → ... → Except ApiError ...`.
  Raising `HTTPException` becomes `Except.error ⟨statusCode, detail⟩`;
  since a raised exception rolls back the request's transaction, an
  `Except.error` result carries no updated database: the stored state is
  unchanged by a failed call.
- SQLAlchemy relationship/lookup access (`db.get`, `offer.negotiation`,
  `db.scalar(select…)`) becomes `List.find?` over the corresponding table;
  in-place mutation of a fetched row becomes an id-keyed functional update.
- Database-assigned primary keys on `flush` are modelled as `max id + 1`.
-/

/-- `models/enums.py` `ListingStatus` (a `(str, Enum)` class). -/
inductive ListingStatus
  | draft
  | active
  | sold
  | archived
deriving DecidableEq, Repr

/-- The `.value` string of a `ListingStatus` member. -/
def ListingStatus.value : ListingStatus → String
  | .draft => "draft"
  | .active => "active"
  | .sold => "sold"
  | .archived => "archived"

/-- The member name of a `ListingStatus` member (equal to its value here). -/
def ListingStatus.memberName : ListingStatus → String :=
  ListingStatus.value

/-- CPython semantics of `str(member)` for a plain `(str, Enum)` mixin class:
the enum machinery keeps `Enum.__str__`, so the result is
`"ClassName.member_name"`, not the member's string value.  (`StrEnum` would
give the value, but `models/enums.py` uses `class ListingStatus(str, Enum)`.)
This is what `_ensure_listing_active` in `offers.py` compares against
`("active",)`. -/
def pyStrListingStatus (s : ListingStatus) : String :=
  "ListingStatus." ++ s.memberName

/-- Python truthiness of a `ListingStatus` member: a `str` subclass is truthy
iff its string value is nonempty; every member's value is nonempty. -/
def listingStatusTruthy (s : ListingStatus) : Bool :=
  s.value ≠ ""

/-- `models/enums.py` `OfferStatus`. -/
inductive OfferStatus
  | pending
  | accepted
  | rejected
  | withdrawn
  | expired
deriving DecidableEq, Repr

/-- `models/enums.py` `NegotiationStatus` (`open` is a Lean keyword, hence
the trailing underscore on the first constructor). -/
inductive NegotiationStatus
  | open_
  | closed
  | cancelled
deriving DecidableEq, Repr

/-- `models/enums.py` `SwapStatus`. -/
inductive SwapStatus
  | proposed
  | accepted
  | rejected
  | completed
  | cancelled
deriving DecidableEq, Repr

/-- `models/enums.py` `TransactionStatus`. -/
inductive TransactionStatus
  | pending
  | succeeded
  | failed
  | refunded
deriving DecidableEq, Repr

/-- The `.value` string of a `TransactionStatus` member (used by the webhook
acknowledgement's `set_status_…` action string). -/
def TransactionStatus.value : TransactionStatus → String
  | .pending => "pending"
  | .succeeded => "succeeded"
  | .failed => "failed"
  | .refunded => "refunded"

/-- A raised `fastapi.HTTPException`: status code plus detail string. -/
structure ApiError where
  code : Nat
  detail : String
deriving DecidableEq, Repr

/-- Python `a or b` on optional strings: `None` and `""` are falsy and fall
through to the second operand. -/
def pyOrStr : Option String → Option String → Option String
  | some s, b => if s = "" then b else some s
  | none, b => b

/-- Python truthiness of an optional string (`if payload.message:`,
`if pi_id:`): `None` and `""` are falsy. -/
def pyTruthyStr : Option String → Bool
  | some s => s ≠ ""
  | none => false

/-- Python's default `str.strip()` whitespace set (ASCII part). -/
def isPySpace (c : Char) : Bool :=
  c == ' ' || c == '\t' || c == '\n' || c == '\r' || c == '\x0b' || c == '\x0c'

/-- Python `s.strip()`: drop leading and trailing whitespace characters. -/
def pyStrip (s : String) : String :=
  ⟨((s.data.dropWhile isPySpace).reverse.dropWhile isPySpace).reverse⟩

/-- Rendering of a numeric amount inside an f-string
(`f"Offer created at {offer.amount}"`).  The exact Python `str(Decimal)` /
`str(float)` digit string is abstracted as the rational's `toString`; no
verified property depends on its exact form, only on it being a function of
the amount. -/
def showAmount (q : Rat) : String :=
  toString q

/-- `models/listing.py` `Listing` (fields the offer/swap logic reads). -/
structure Listing where
  id : Nat
  sellerId : Nat
  status : ListingStatus
  price : Rat
deriving DecidableEq, Repr

/-- `models/offer.py` `Offer`. -/
structure Offer where
  id : Nat
  amount : Rat
  status : OfferStatus
  listingId : Nat
  buyerId : Nat
deriving DecidableEq, Repr

/-- `models/negotiation.py` `Negotiation` (1:1 with an offer via
`offer_id`). -/
structure Negotiation where
  id : Nat
  status : NegotiationStatus
  lastMessage : Option String
  offerId : Nat
  listingId : Nat
deriving DecidableEq, Repr

/-- The relational store as seen by the offer/negotiation routers. -/
structure MarketDb where
  listings : List Listing
  offers : List Offer
  negotiations : List Negotiation
deriving DecidableEq, Repr

/-- `db.get(Listing, id)`. -/
def findListing (db : MarketDb) (i : Nat) : Option Listing :=
  db.listings.find? (fun l => l.id == i)

/-- `db.get(Offer, id)`. -/
def findOffer (db : MarketDb) (i : Nat) : Option Offer :=
  db.offers.find? (fun o => o.id == i)

/-- The `offer.negotiation` relationship: the negotiation whose `offer_id`
is the offer's id (unique per offer in the schema). -/
def findNegotiationForOffer (db : MarketDb) (offerId : Nat) : Option Negotiation :=
  db.negotiations.find? (fun n => n.offerId == offerId)

/-- In-place mutation of a fetched `Offer` row, keyed by id. -/
def updateOffer (db : MarketDb) (o : Offer) : MarketDb :=
  { db with offers := db.offers.map (fun x => if x.id == o.id then o else x) }

/-- In-place mutation of a fetched `Negotiation` row, keyed by id. -/
def updateNegotiation (db : MarketDb) (n : Negotiation) : MarketDb :=
  { db with negotiations := db.negotiations.map (fun x => if x.id == n.id then n else x) }

/-- `db.add(neg)` for a new negotiation row. -/
def addNegotiation (db : MarketDb) (n : Negotiation) : MarketDb :=
  { db with negotiations := db.negotiations ++ [n] }

/-- Fresh primary key assigned on flush for a new offer row. -/
def freshOfferId (db : MarketDb) : Nat :=
  (db.offers.map Offer.id).foldr max 0 + 1

/-- Fresh primary key assigned on flush for a new negotiation row. -/
def freshNegId (db : MarketDb) : Nat :=
  (db.negotiations.map Negotiation.id).foldr max 0 + 1

/-- `offers.py` `_ensure_listing_active`: raises 400 when
`getattr(listing, "status", None)` is truthy and `str(listing.status)` is not
in `("active",)`.  Because `str()` of a `(str, Enum)` member renders as
`"ListingStatus.<name>"`, the membership test compares e.g.
`"ListingStatus.active"` against `"active"`. -/
def ensure_listing_active (l : Listing) : Except ApiError Unit :=
  if listingStatusTruthy l.status && !(pyStrListingStatus l.status == "active") then
    .error ⟨400, "Cannot create offer on inactive listing"⟩
  else
    .ok ()

/-- `offers.py` `create_offer_for_listing`: 404 on missing listing, 403 on
self-dealing, the active-listing guard, 400 on non-positive amount; then a
pending offer row and (when none exists yet) an open negotiation row with
`last_message = "Offer created at {amount}"`. -/
def create_offer_for_listing (db : MarketDb) (listingId userId : Nat) (amount : Rat) :
    Except ApiError (MarketDb × Offer) :=
  match findListing db listingId with
  | none => .error ⟨404, "Listing not found"⟩
  | some listing =>
    if listing.sellerId == userId then
      .error ⟨403, "Cannot create offer on your own listing"⟩
    else
      match ensure_listing_active listing with
      | .error e => .error e
      | .ok _ =>
        if amount ≤ 0 then
          .error ⟨400, "Amount must be greater than 0"⟩
        else
          let offer : Offer :=
            { id := freshOfferId db, amount := amount, status := .pending,
              listingId := listing.id, buyerId := userId }
          let db1 : MarketDb := { db with offers := db.offers ++ [offer] }
          match findNegotiationForOffer db1 offer.id with
          | some _ => .ok (db1, offer)
          | none =>
            let neg : Negotiation :=
              { id := freshNegId db1, status := .open_,
                lastMessage := some ("Offer created at " ++ showAmount offer.amount),
                offerId := offer.id, listingId := listing.id }
            .ok (addNegotiation db1 neg, offer)

/-- `offers.py` `_ensure_can_modify_offer_as_seller`: 404 on missing
listing, 403 unless the caller is the listing's seller, 400 when the offer's
status is terminal. -/
def ensure_can_modify_offer_as_seller (db : MarketDb) (offer : Offer) (userId : Nat) :
    Except ApiError Listing :=
  match findListing db offer.listingId with
  | none => .error ⟨404, "Listing not found"⟩
  | some listing =>
    if !(listing.sellerId == userId) then
      .error ⟨403, "Only the seller can perform this action"⟩
    else if offer.status ∈ [OfferStatus.accepted, .rejected, .withdrawn, .expired] then
      .error ⟨400, "Offer is not modifiable in current status"⟩
    else
      .ok listing

/-- `offers.py` `counter_offer`: the seller overwrites a pending offer's
amount in place (status untouched) and writes / creates the negotiation note
`"Seller countered to {amount}"`. -/
def counter_offer (db : MarketDb) (offerId userId : Nat) (amount : Rat) :
    Except ApiError (MarketDb × Offer) :=
  match findOffer db offerId with
  | none => .error ⟨404, "Offer not found"⟩
  | some offer =>
    match ensure_can_modify_offer_as_seller db offer userId with
    | .error e => .error e
    | .ok listing =>
      if amount ≤ 0 then
        .error ⟨400, "Amount must be greater than 0"⟩
      else
        let offer1 : Offer := { offer with amount := amount }
        let db1 := updateOffer db offer1
        match findNegotiationForOffer db offer.id with
        | some neg =>
          .ok (updateNegotiation db1
                { neg with lastMessage := some ("Seller countered to " ++ showAmount offer1.amount) },
              offer1)
        | none =>
          let neg : Negotiation :=
            { id := freshNegId db1, status := .open_,
              lastMessage := some ("Seller countered to " ++ showAmount offer1.amount),
              offerId := offer.id, listingId := listing.id }
          .ok (addNegotiation db1 neg, offer1)

/-- `offers.py` `accept_offer`: a party accepts a pending offer; status
becomes `accepted` and the negotiation (if any) is closed with
`"Offer accepted"`. -/
def accept_offer (db : MarketDb) (offerId userId : Nat) :
    Except ApiError (MarketDb × Offer) :=
  match findOffer db offerId with
  | none => .error ⟨404, "Offer not found"⟩
  | some offer =>
    match findListing db offer.listingId with
    | none => .error ⟨404, "Listing not found"⟩
    | some listing =>
      if !(userId == offer.buyerId) && !(userId == listing.sellerId) then
        .error ⟨403, "Not a party to this offer"⟩
      else if !(offer.status == .pending) then
        .error ⟨400, "Only pending offers can be accepted"⟩
      else
        let offer1 : Offer := { offer with status := .accepted }
        let db1 := updateOffer db offer1
        match findNegotiationForOffer db offer.id with
        | some neg =>
          .ok (updateNegotiation db1
                { neg with status := .closed, lastMessage := some "Offer accepted" },
              offer1)
        | none => .ok (db1, offer1)

/-- `offers.py` `decline_offer`: a party declines a pending offer; status
becomes `rejected` and the negotiation (if any) is closed with
`"Offer declined"`. -/
def decline_offer (db : MarketDb) (offerId userId : Nat) :
    Except ApiError (MarketDb × Offer) :=
  match findOffer db offerId with
  | none => .error ⟨404, "Offer not found"⟩
  | some offer =>
    match findListing db offer.listingId with
    | none => .error ⟨404, "Listing not found"⟩
    | some listing =>
      if !(userId == offer.buyerId) && !(userId == listing.sellerId) then
        .error ⟨403, "Not a party to this offer"⟩
      else if !(offer.status == .pending) then
        .error ⟨400, "Only pending offers can be declined"⟩
      else
        let offer1 : Offer := { offer with status := .rejected }
        let db1 := updateOffer db offer1
        match findNegotiationForOffer db offer.id with
        | some neg =>
          .ok (updateNegotiation db1
                { neg with status := .closed, lastMessage := some "Offer declined" },
              offer1)
        | none => .ok (db1, offer1)

/-- Tail of `negotiations.py` `post_negotiation_for_offer`: update the
existing negotiation (resetting its status to `open`) or create a fresh open
one, with `last_message` the `" | "`-join of the note parts. -/
def finishPost (db : MarketDb) (listing : Listing) (offer : Offer) (parts : List String) :
    Except ApiError (MarketDb × Negotiation) :=
  match findNegotiationForOffer db offer.id with
  | some neg =>
    let neg1 : Negotiation :=
      { neg with status := .open_, lastMessage := some (String.intercalate " | " parts) }
    .ok (updateNegotiation db neg1, neg1)
  | none =>
    let neg : Negotiation :=
      { id := freshNegId db, status := .open_,
        lastMessage := some (String.intercalate " | " parts),
        offerId := offer.id, listingId := listing.id }
    .ok (addNegotiation db neg, neg)

/-- `negotiations.py` `post_negotiation_for_offer`: party check, the
`NotNegotiable` guard (`offer.status != pending`), message handling
(`if payload.message:` truthiness, then `.strip()` as `pyStrip`), the
optional counter (either party; overwrites
`offer.amount`, appends `"Countered to {amount}"`), the empty-post guard,
then `finishPost`. -/
def post_negotiation_for_offer (db : MarketDb) (offerId userId : Nat)
    (message : Option String) (counterAmount : Option Rat) :
    Except ApiError (MarketDb × Negotiation) :=
  match findOffer db offerId with
  | none => .error ⟨404, "Offer not found"⟩
  | some offer =>
    match findListing db offer.listingId with
    | none => .error ⟨404, "Listing not found"⟩
    | some listing =>
      if !(userId == offer.buyerId) && !(userId == listing.sellerId) then
        .error ⟨403, "Not a party to this negotiation"⟩
      else if !(offer.status == .pending) then
        .error ⟨400, "Offer is not negotiable in current status"⟩
      else
        let noteParts0 : List String :=
          if pyTruthyStr message then [pyStrip (message.getD "")] else []
        match counterAmount with
        | some c =>
          if c ≤ 0 then
            .error ⟨400, "Counter must be > 0"⟩
          else
            let offer1 : Offer := { offer with amount := c }
            let db1 := updateOffer db offer1
            finishPost db1 listing offer1
              (noteParts0 ++ ["Countered to " ++ showAmount offer1.amount])
        | none =>
          if noteParts0.isEmpty then
            .error ⟨400, "Provide message or counter_amount"⟩
          else
            finishPost db listing offer noteParts0

/-- `models/swap.py` `Swap` (fields the decision logic reads).  The routers
load the swap by id and 404 when missing; the decision functions below model
the behaviour on a found swap row. -/
structure Swap where
  id : Nat
  status : SwapStatus
  listingId : Nat
  initiatorId : Nat
  counterpartyId : Nat
deriving DecidableEq, Repr

/-- `swaps.py` `_ensure_can_decide_swap`: 403 unless the caller is the
swap's counterparty, 400 unless the swap is still `proposed`. -/
def ensure_can_decide_swap (s : Swap) (userId : Nat) : Except ApiError Unit :=
  if !(userId == s.counterpartyId) then
    .error ⟨403, "Only the recipient can decide this swap"⟩
  else if !(s.status == .proposed) then
    .error ⟨400, "Only proposed swaps can be decided"⟩
  else
    .ok ()

/-- `swaps.py` `accept_swap` on a found swap: guard, then status `accepted`. -/
def accept_swap (s : Swap) (userId : Nat) : Except ApiError Swap :=
  match ensure_can_decide_swap s userId with
  | .error e => .error e
  | .ok _ => .ok { s with status := .accepted }

/-- `swaps.py` `decline_swap` on a found swap: guard, then status `rejected`. -/
def decline_swap (s : Swap) (userId : Nat) : Except ApiError Swap :=
  match ensure_can_decide_swap s userId with
  | .error e => .error e
  | .ok _ => .ok { s with status := .rejected }

/-- `models/transaction.py` `Transaction` (fields the ledger logic uses). -/
structure Transaction where
  id : Nat
  amount : Rat
  currency : String
  status : TransactionStatus
  provider : String
  providerPaymentIntentId : Option String
  listingId : Option Nat
  buyerId : Option Nat
deriving DecidableEq, Repr

/-- The parsed webhook event as read by
`webhooks.py` `_map_stripe_event_to_status`: `event["type"]`,
`event["data"]["object"]["id"]` and `event["data"]["object"]["payment_intent"]`
flattened to optional strings (`none` when the key path is absent). -/
structure StripeEvent where
  type : Option String
  objId : Option String
  objPaymentIntent : Option String
deriving DecidableEq, Repr

/-- `webhooks.py` `_map_stripe_event_to_status`:
`etype = str(event.get("type") or "")`;
`intent_id = obj.get("id") or obj.get("payment_intent")`;
`payment_intent.succeeded → succeeded`,
`payment_intent.payment_failed | charge.failed → failed`,
`charge.refunded | charge.refund.updated → refunded`, otherwise no status. -/
def map_stripe_event_to_status (event : StripeEvent) :
    Option String × Option TransactionStatus :=
  let etype : String := (pyOrStr event.type (some "")).getD ""
  let intentId : Option String := pyOrStr event.objId event.objPaymentIntent
  let mappedStatus : Option TransactionStatus :=
    if etype ∈ ["payment_intent.succeeded"] then
      some .succeeded
    else if etype ∈ ["payment_intent.payment_failed", "charge.failed"] then
      some .failed
    else if etype ∈ ["charge.refunded", "charge.refund.updated"] then
      some .refunded
    else
      none
  (intentId, mappedStatus)

/-- `webhooks.py` `WebhookAck` response model. -/
structure WebhookAck where
  received : Bool
  verified : Bool
  action : Option String
  transactionId : Option Nat
  note : Option String
deriving DecidableEq, Repr

/-- The transactions table. -/
abbrev TxnDb := List Transaction

/-- `db.scalar(select(Transaction).where(provider_payment_intent_id == pi_id))`:
first row matching the payment-intent id. -/
def findTxnByIntent (db : TxnDb) (piId : String) : Option Transaction :=
  db.find? (fun t => t.providerPaymentIntentId == some piId)

/-- In-place status mutation of the row `db.scalar` returned: the first
transaction matching the payment-intent id. -/
def setTxnStatusByIntent (db : TxnDb) (piId : String) (ns : TransactionStatus) : TxnDb :=
  match db with
  | [] => []
  | t :: ts =>
    if t.providerPaymentIntentId == some piId then
      { t with status := ns } :: ts
    else
      t :: setTxnStatusByIntent ts piId ns

/-- `webhooks.py` `payments_webhook` after `verify_webhook` has produced
`(verified, event)`: map the event, look up the transaction by
payment-intent id, overwrite its status when both the row and a mapped
status exist, and acknowledge with HTTP 200 in every case (the function is
total: a missing transaction yields the `transaction_not_found` action, not
an error). -/
def payments_webhook (db : TxnDb) (verified : Bool) (event : StripeEvent) :
    TxnDb × WebhookAck :=
  let (piId, newStatus) := map_stripe_event_to_status event
  if pyTruthyStr piId then
    let pid := piId.getD ""
    match findTxnByIntent db pid with
    | some txn =>
      match newStatus with
      | some ns =>
        (setTxnStatusByIntent db pid ns,
         { received := true, verified := verified,
           action := some ("set_status_" ++ ns.value),
           transactionId := some txn.id, note := some "Processed webhook event" })
      | none =>
        (db, { received := true, verified := verified,
               action := some "no_status_change",
               transactionId := some txn.id, note := some "Processed webhook event" })
    | none =>
      (db, { received := true, verified := verified,
             action := some "transaction_not_found",
             transactionId := none, note := some "Processed webhook event" })
  else
    (db, { received := true, verified := verified, action := none,
           transactionId := none, note := some "Processed webhook event" })

/-- The configuration and environment `services/payments.py` consults:
`settings.PAYMENT_PROVIDER`, whether the `stripe` library imported,
`settings.STRIPE_WEBHOOK_SECRET`, and `os.getenv("MOCK_WEBHOOK_SECRET")`. -/
structure PaymentsEnv where
  paymentProvider : Option String
  stripeAvailable : Bool
  stripeWebhookSecret : Option String
  mockWebhookSecret : Option String
deriving DecidableEq, Repr

/-- Python `str.lower` / `str.upper`, modelled as per-character ASCII case
mapping over the string's characters (the configuration and currency strings
involved are ASCII; `String.toLower` itself is not kernel-reducible). -/
def asciiLowerChar (c : Char) : Char :=
  if 'A' ≤ c ∧ c ≤ 'Z' then Char.ofNat (c.toNat + 32) else c

/-- ASCII uppercase of one character. -/
def asciiUpperChar (c : Char) : Char :=
  if 'a' ≤ c ∧ c ≤ 'z' then Char.ofNat (c.toNat - 32) else c

/-- `s.lower()`. -/
def pyLower (s : String) : String :=
  ⟨s.data.map asciiLowerChar⟩

/-- `s.upper()`. -/
def pyUpper (s : String) : String :=
  ⟨s.data.map asciiUpperChar⟩

/-- The provider-selection expression the payments service and the
transactions router both evaluate:
`(settings.PAYMENT_PROVIDER or "stripe").lower()`. -/
def effectiveProvider (p : Option String) : String :=
  pyLower ((pyOrStr p (some "stripe")).getD "")

/-- `json.loads` failure fallback `{"raw": payload}`: a dict with no
`type`/`data` keys, so every field read by the event mapper is absent. -/
def rawFallbackEvent : StripeEvent :=
  { type := none, objId := none, objPaymentIntent := none }

/-- The event dictionary downstream processing sees: the parsed JSON body
when `json.loads` succeeded, else the `{"raw": …}` fallback. -/
def parsedOrRaw (parsed : Option StripeEvent) : StripeEvent :=
  parsed.getD rawFallbackEvent

/-- `services/payments.py` `verify_webhook`, with the cryptographic calls
abstracted: `parsed` is the outcome of `json.loads(raw_body)`; `sigValid`
stands for `stripe.Webhook.construct_event` succeeding (only consulted when
provider is stripe, the library is available and a webhook secret is set);
`hmacMatches` stands for the mock-provider HMAC comparison (only consulted
when a mock secret and a signature are present).  Every branch returns a
`(verified, event)` pair — the function never raises. -/
def verify_webhook (env : PaymentsEnv) (parsed : Option StripeEvent)
    (signature : Option String) (sigValid : Bool) (hmacMatches : Bool) :
    Bool × StripeEvent :=
  if effectiveProvider env.paymentProvider == "stripe" then
    if env.stripeAvailable && pyTruthyStr env.stripeWebhookSecret then
      if sigValid then
        (true, parsedOrRaw parsed)
      else
        (false, parsedOrRaw parsed)
    else
      (false, parsedOrRaw parsed)
  else
    if pyTruthyStr env.mockWebhookSecret && pyTruthyStr signature then
      (hmacMatches, parsedOrRaw parsed)
    else
      (false, parsedOrRaw parsed)

/-- The full `payments_webhook` route: `verify_webhook` on the raw body,
then the transaction update — processing continues with the parsed event
whatever the verification outcome. -/
def handle_payments_webhook (env : PaymentsEnv) (parsed : Option StripeEvent)
    (signature : Option String) (sigValid : Bool) (hmacMatches : Bool) (db : TxnDb) :
    TxnDb × WebhookAck :=
  let (verified, event) := verify_webhook env parsed signature sigValid hmacMatches
  payments_webhook db verified event

/-- `services/payments.py` `PaymentIntentResult`. -/
structure PaymentIntentResult where
  provider : String
  paymentIntentId : String
  clientSecret : Option String
  amountCents : Int
  currency : String
deriving DecidableEq, Repr

/-- Python `int(Decimal(...))`: truncation toward zero of an exact rational
(`int(Decimal(payload.amount) * 100)` in `transactions.py`). -/
def pyIntTrunc (q : Rat) : Int :=
  if 0 ≤ q.num then
    Int.ofNat (q.num.toNat / q.den)
  else
    -(Int.ofNat ((-q.num).toNat / q.den))

/-- `transactions.py` `CheckoutResponse` (sans the serialized read model). -/
structure CheckoutResponse where
  provider : String
  clientSecret : Option String
  paymentIntentId : String
  transaction : Transaction
deriving DecidableEq, Repr

/-- `transactions.py` `checkout`: optional listing resolution (404 when the
given id is unresolved), the positive-amount guard, conversion of the
decimal amount to minor units via `int(Decimal(amount) * 100)`, delegation
to the payment-provider capability (`create_payment_intent`, passed in as a
function of minor-unit amount and lowercased currency), and persistence of a
pending `Transaction` keyed by the provider's returned payment-intent id.
The provider name stored on the row is `(settings.PAYMENT_PROVIDER or
"stripe").lower()`; metadata handling has no observable effect on the stored
row and is omitted. -/
def checkout (db : TxnDb) (env : PaymentsEnv)
    (createIntent : Int → String → PaymentIntentResult)
    (userId : Nat) (listings : List Listing)
    (listingId : Option Nat) (amount : Rat) (currency : String) :
    Except ApiError (TxnDb × CheckoutResponse) :=
  let listingObj : Option Listing :=
    match listingId with
    | some i => listings.find? (fun l => l.id == i)
    | none => none
  match listingId with
  | some i =>
    match listings.find? (fun l => l.id == i) with
    | none => .error ⟨404, "Listing not found"⟩
    | some _ =>
      checkoutAfterListing db env createIntent userId listingObj amount currency
  | none =>
    checkoutAfterListing db env createIntent userId listingObj amount currency
where
  /-- The part of `checkout` after the listing check. -/
  checkoutAfterListing (db : TxnDb) (env : PaymentsEnv)
      (createIntent : Int → String → PaymentIntentResult)
      (userId : Nat) (listingObj : Option Listing) (amount : Rat) (currency : String) :
      Except ApiError (TxnDb × CheckoutResponse) :=
    if amount ≤ 0 then
      .error ⟨400, "Amount must be greater than 0"⟩
    else
      let amountCents := pyIntTrunc (amount * 100)
      let intent := createIntent amountCents (pyLower currency)
      let txn : Transaction :=
        { id := (db.map Transaction.id).foldr max 0 + 1,
          amount := amount,
          currency := pyUpper currency,
          status := .pending,
          provider := effectiveProvider env.paymentProvider,
          providerPaymentIntentId := some intent.paymentIntentId,
          listingId := (listingObj.map Listing.id),
          buyerId := some userId }
      .ok (db ++ [txn],
           { provider := intent.provider, clientSecret := intent.clientSecret,
             paymentIntentId := intent.paymentIntentId, transaction := txn })

/-- Failing input for C1: an active listing (id 1, seller 10) and a distinct
buyer (20) offering a positive amount. -/
def c1Db : MarketDb :=
  { listings := [{ id := 1, sellerId := 10, status := .active, price := 100 }],
    offers := [], negotiations := [] }

/-- Concrete swap for C7's witness. -/
def c7Swap : Swap :=
  { id := 1, status := .proposed, listingId := 2, initiatorId := 3, counterpartyId := 4 }

/-- Concrete transaction and event for C4's witness: a `succeeded`
transaction regressed to `failed` by a `charge.failed` event. -/
def c4Txn : Transaction :=
  { id := 7, amount := 50, currency := "USD", status := .succeeded,
    provider := "stripe", providerPaymentIntentId := some "pi_123",
    listingId := none, buyerId := some 20 }

/-- The `charge.failed` event carrying payment intent `pi_123`. -/
def c4Event : StripeEvent :=
  { type := some "charge.failed", objId := some "pi_123", objPaymentIntent := none }

/-- Environment for C5's witness: stripe provider with no webhook secret
configured, so verification is unavailable. -/
def c5Env : PaymentsEnv :=
  { paymentProvider := some "stripe", stripeAvailable := true,
    stripeWebhookSecret := none, mockWebhookSecret := none }

/-- Parsed event for C5's witness. -/
def c5Event : StripeEvent :=
  { type := some "payment_intent.succeeded", objId := some "pi_9", objPaymentIntent := none }

/-- A pending transaction matched by C5's witness event. -/
def c5Txn : Transaction :=
  { id := 8, amount := 10, currency := "USD", status := .pending,
    provider := "stripe", providerPaymentIntentId := some "pi_9",
    listingId := none, buyerId := some 21 }

/-- Event for C6's witness: a `payment_intent.succeeded` event whose intent
id matches no transaction. -/
def c6Event : StripeEvent :=
  { type := some "payment_intent.succeeded", objId := some "pi_404", objPaymentIntent := none }

/-- Concrete state for C10's witness. -/
def c10Db : MarketDb :=
  { listings := [{ id := 2, sellerId := 10, status := .active, price := 100 }],
    offers := [{ id := 1, amount := 80, status := .pending, listingId := 2, buyerId := 20 }],
    negotiations := [] }

/-- Concrete state for C2's witness: pending offer 1 (buyer 20, amount 80)
on listing 2 (seller 10), with an open negotiation. -/
def c2Offer : Offer := { id := 1, amount := 80, status := .pending, listingId := 2, buyerId := 20 }

/-- The listing of C2's witness. -/
def c2Listing : Listing := { id := 2, sellerId := 10, status := .active, price := 100 }

/-- The database of C2's witness. -/
def c2Db : MarketDb :=
  { listings := [c2Listing],
    offers := [c2Offer],
    negotiations := [{ id := 4, status := .open_, lastMessage := some "Offer created at 80", offerId := 1, listingId := 2 }] }

/-- Concrete state for C3's witness: offer 1 already accepted (buyer 20,
seller 10). -/
def c3Offer : Offer := { id := 1, amount := 80, status := .accepted, listingId := 2, buyerId := 20 }

/-- The listing of C3's witness. -/
def c3Listing : Listing := { id := 2, sellerId := 10, status := .active, price := 100 }

/-- The database of C3's witness. -/
def c3Db : MarketDb :=
  { listings := [c3Listing],
    offers := [c3Offer],
    negotiations := [{ id := 4, status := .closed, lastMessage := some "Offer accepted", offerId := 1, listingId := 2 }] }

/-- Environment for C8's witness (mock provider, nothing configured). -/
def c8Env : PaymentsEnv :=
  { paymentProvider := none, stripeAvailable := false,
    stripeWebhookSecret := none, mockWebhookSecret := none }

/-- A concrete payment-provider capability for C8's witness. -/
def c8Intent : Int → String → PaymentIntentResult := fun cents curr =>
  { provider := "mock", paymentIntentId := "pi_c8", clientSecret := some "pi_c8_secret",
    amountCents := cents, currency := curr }

/-- The negotiation-closure invariant: a closed negotiation's offer is not
pending.  It holds of every state the operations can produce (a negotiation
is closed exactly when its offer is accepted or rejected) and is what makes
the reopening assignment in `post_negotiation_for_offer` unreachable for a
closed negotiation. -/
def NegOfferInv (db : MarketDb) : Prop :=
  ∀ n ∈ db.negotiations, n.status = .closed →
    ∀ o ∈ db.offers, o.id = n.offerId → o.status ≠ .pending

/-- Concrete state for C9's witness: accepted offer 1 with its closed
negotiation. -/
def c9Offer : Offer := { id := 1, amount := 90, status := .accepted, listingId := 2, buyerId := 20 }

/-- The listing of C9's witness. -/
def c9Listing : Listing := { id := 2, sellerId := 10, status := .active, price := 100 }

/-- The closed negotiation of C9's witness. -/
def c9Neg : Negotiation :=
  { id := 5, status := .closed, lastMessage := some "Offer accepted", offerId := 1, listingId := 2 }

/-- The database of C9's witness. -/
def c9Db : MarketDb :=
  { listings := [c9Listing], offers := [c9Offer], negotiations := [c9Neg] }

/-! ### Helper lemmas -/

/-- `_ensure_listing_active` raises for every listing, whatever its status:
the member is always truthy and `str()` of a `(str, Enum)` member never
equals the bare value `"active"`. -/
theorem ensure_listing_active_errors (l : Listing) :
    ensure_listing_active l = .error ⟨400, "Cannot create offer on inactive listing"⟩ := by
  rcases l with ⟨i, s, st, p⟩
  cases st <;> rfl

/-- Consequently `create_offer_for_listing` never succeeds: every control
path raises (404, 403, or the active-listing guard's 400). -/
theorem create_offer_always_errors (db : MarketDb) (lid uid : Nat) (amt : Rat) :
    ∃ e, create_offer_for_listing db lid uid amt = .error e := by
  unfold create_offer_for_listing
  cases hfl : findListing db lid with
  | none => exact ⟨_, rfl⟩
  | some l =>
    by_cases hs : (l.sellerId == uid) = true
    · exact ⟨⟨403, "Cannot create offer on your own listing"⟩, by simp [hs]⟩
    · exact ⟨⟨400, "Cannot create offer on inactive listing"⟩,
        by simp [hs, ensure_listing_active_errors l]⟩

/-- `verify_webhook` always hands downstream processing the parsed body
(or its raw fallback), whatever the verification outcome. -/
theorem verify_webhook_snd (env : PaymentsEnv) (parsed : Option StripeEvent)
    (sig : Option String) (sv hm : Bool) :
    (verify_webhook env parsed sig sv hm).2 = parsedOrRaw parsed := by
  unfold verify_webhook
  repeat' split
  all_goals rfl

/-- `verify_webhook` returns `verified = false` whenever cryptographic
verification is unavailable (non-stripe provider without a matching mock
check, or stripe without library/secret) or the signature check fails. -/
theorem verify_webhook_false_of_unavailable (env : PaymentsEnv) (parsed : Option StripeEvent)
    (sig : Option String) (sv hm : Bool)
    (h : effectiveProvider env.paymentProvider == "stripe" →
         (env.stripeAvailable && pyTruthyStr env.stripeWebhookSecret) = true → sv = false)
    (h2 : ¬(effectiveProvider env.paymentProvider == "stripe") = true →
          (pyTruthyStr env.mockWebhookSecret && pyTruthyStr sig) = true → hm = false) :
    (verify_webhook env parsed sig sv hm).1 = false := by
  unfold verify_webhook
  by_cases hp : (effectiveProvider env.paymentProvider == "stripe") = true
  · simp only [hp, if_true]
    by_cases hc : (env.stripeAvailable && pyTruthyStr env.stripeWebhookSecret) = true
    · have := h hp hc
      simp [hc, this]
    · simp [hc]
  · simp only [hp, Bool.false_eq_true, if_false]
    by_cases hc : (pyTruthyStr env.mockWebhookSecret && pyTruthyStr sig) = true
    · have := h2 hp hc
      simp [hc, this]
    · simp [hc]

/-- The database effect of `payments_webhook` does not depend on the
verification flag; `verified` only flows into the acknowledgement. -/
theorem payments_webhook_fst_ignores_verified (db : TxnDb) (e : StripeEvent) (v v' : Bool) :
    (payments_webhook db v e).1 = (payments_webhook db v' e).1 := by
  unfold payments_webhook
  cases hm : map_stripe_event_to_status e with
  | mk piId ns =>
    by_cases ht : pyTruthyStr piId = true
    · simp only [ht, if_true]
      cases hf : findTxnByIntent db (piId.getD "") with
      | none => rfl
      | some t => cases ns <;> rfl
    · simp only [Bool.not_eq_true] at ht
      simp only [ht, Bool.false_eq_true, if_false]

/-- The acknowledgement of `payments_webhook` reports the verification flag
it was given, and always acknowledges receipt. -/
theorem payments_webhook_ack (db : TxnDb) (e : StripeEvent) (v : Bool) :
    (payments_webhook db v e).2.verified = v ∧ (payments_webhook db v e).2.received = true := by
  unfold payments_webhook
  cases hm : map_stripe_event_to_status e with
  | mk piId ns =>
    by_cases ht : pyTruthyStr piId = true
    · simp only [ht, if_true]
      cases hf : findTxnByIntent db (piId.getD "") with
      | none => exact ⟨rfl, rfl⟩
      | some t => cases ns <;> exact ⟨rfl, rfl⟩
    · simp only [Bool.not_eq_true] at ht
      simp only [ht, Bool.false_eq_true, if_false]
      trivial

/-- Updating the status of the first transaction matching a payment-intent
id: the subsequent lookup returns that row with the new status. -/
theorem findTxn_setTxnStatus (db : TxnDb) (pid : String) (ns : TransactionStatus)
    (t : Transaction) (h : findTxnByIntent db pid = some t) :
    findTxnByIntent (setTxnStatusByIntent db pid ns) pid = some { t with status := ns } := by
  induction db with
  | nil => simp [findTxnByIntent] at h
  | cons a as ih =>
    by_cases ha : (a.providerPaymentIntentId == some pid) = true
    · have hat : a = t := by
        simp [findTxnByIntent, List.find?_cons, ha] at h
        exact h
      subst hat
      simp [setTxnStatusByIntent, findTxnByIntent, List.find?_cons, ha]
    · have h' : findTxnByIntent as pid = some t := by
        simpa [findTxnByIntent, List.find?_cons, ha] using h
      have := ih h'
      simpa [setTxnStatusByIntent, findTxnByIntent, List.find?_cons, ha] using this

/-! ### Claim theorems -/

/-- C1: the claim says `createOffer` succeeds for every active listing,
non-seller buyer and positive amount, and fails with `ListingNotActive`
exactly when the listing is not active.  The code violates this: because
`_ensure_listing_active` compares `str(listing.status)` — which renders as
`"ListingStatus.active"` for a `(str, Enum)` member — against `"active"`,
the guard rejects an active listing, so offer creation fails with the
listing-not-active error on the claim's own happy-path input. -/
theorem C1_create_offer_rejects_active_listing :
    create_offer_for_listing c1Db 1 20 80 =
      .error ⟨400, "Cannot create offer on inactive listing"⟩ := by
  rfl

/-- C7: deciding a swap fails with 403 for every acting user other than the
counterparty (in particular the initiator) — an error outcome carries no
updated row, so the swap is unchanged; for the counterparty it fails with
400 unless the swap is `proposed`, and on a proposed swap sets the status to
`accepted` (accept) or `rejected` (decline). -/
theorem C7_swap_decide_authorization (s : Swap) (u : Nat) :
    (u ≠ s.counterpartyId →
       accept_swap s u = .error ⟨403, "Only the recipient can decide this swap"⟩ ∧
       decline_swap s u = .error ⟨403, "Only the recipient can decide this swap"⟩) ∧
    (u = s.counterpartyId → s.status ≠ .proposed →
       accept_swap s u = .error ⟨400, "Only proposed swaps can be decided"⟩ ∧
       decline_swap s u = .error ⟨400, "Only proposed swaps can be decided"⟩) ∧
    (u = s.counterpartyId → s.status = .proposed →
       accept_swap s u = .ok { s with status := .accepted } ∧
       decline_swap s u = .ok { s with status := .rejected }) := by
  refine ⟨fun h => ?_, fun h hs => ?_, fun h hs => ?_⟩
  · have hb : (u == s.counterpartyId) = false := by simp [h]
    simp [accept_swap, decline_swap, ensure_can_decide_swap, hb]
  · have hb : (u == s.counterpartyId) = true := by simp [h]
    have hst : (s.status == SwapStatus.proposed) = false := by
      cases hc : s.status <;> simp_all
    simp [accept_swap, decline_swap, ensure_can_decide_swap, hb, hst]
  · have hb : (u == s.counterpartyId) = true := by simp [h]
    simp [accept_swap, decline_swap, ensure_can_decide_swap, hb, hs]

/-- Witness for C7: on a proposed swap, the initiator (user 3) is refused
and the counterparty (user 4) accepts. -/
theorem C7_swap_decide_authorization_witness :
    accept_swap c7Swap 3 = .error ⟨403, "Only the recipient can decide this swap"⟩ ∧
    accept_swap c7Swap 4 = .ok { c7Swap with status := .accepted } :=
  ⟨((C7_swap_decide_authorization c7Swap 3).1 (by decide)).1,
   ((C7_swap_decide_authorization c7Swap 4).2.2 (by decide) (by decide)).1⟩

/-- C4: when the event maps to a payment-intent id and a target status and a
transaction matches, `payments_webhook` overwrites that transaction's status
with the target — the current status (`t.status`, unconstrained here, so in
particular `succeeded` or `refunded`) is never consulted: there is no guard
against regressing from a terminal status. -/
theorem C4_webhook_status_overwrite_unconditional
    (db : TxnDb) (e : StripeEvent) (pid : String) (ns : TransactionStatus)
    (t : Transaction) (v : Bool)
    (hmap : map_stripe_event_to_status e = (some pid, some ns))
    (hpid : pid ≠ "")
    (hfind : findTxnByIntent db pid = some t) :
    (payments_webhook db v e).1 = setTxnStatusByIntent db pid ns ∧
    findTxnByIntent (setTxnStatusByIntent db pid ns) pid = some { t with status := ns } := by
  constructor
  · unfold payments_webhook
    rw [hmap]
    have ht : pyTruthyStr (some pid) = true := by simp [pyTruthyStr, hpid]
    simp [ht, hfind]
  · exact findTxn_setTxnStatus db pid ns t hfind

/-- Witness for C4: the already-succeeded transaction is overwritten to
`failed`. -/
theorem C4_webhook_status_overwrite_unconditional_witness :
    (payments_webhook [c4Txn] true c4Event).1 = setTxnStatusByIntent [c4Txn] "pi_123" .failed ∧
    findTxnByIntent (setTxnStatusByIntent [c4Txn] "pi_123" .failed) "pi_123" =
      some { c4Txn with status := .failed } :=
  C4_webhook_status_overwrite_unconditional [c4Txn] c4Event "pi_123" .failed c4Txn true
    (by decide) (by decide) (by decide)

/-- C5: when signature verification fails or is unavailable (`verified =
false`), processing does not abort: the downstream event is the parsed body,
the database effect is identical to the fully-verified case (so a matching
transaction's status update is still applied), and the acknowledgement
reports `verified = false` alongside `received = true`. -/
theorem C5_unverified_webhook_still_processed
    (env : PaymentsEnv) (parsed : Option StripeEvent) (sig : Option String)
    (sv hm : Bool) (db : TxnDb)
    (hv : (verify_webhook env parsed sig sv hm).1 = false) :
    verify_webhook env parsed sig sv hm = (false, parsedOrRaw parsed) ∧
    (handle_payments_webhook env parsed sig sv hm db).1 =
      (payments_webhook db true (parsedOrRaw parsed)).1 ∧
    (handle_payments_webhook env parsed sig sv hm db).2.verified = false ∧
    (handle_payments_webhook env parsed sig sv hm db).2.received = true := by
  have hsnd := verify_webhook_snd env parsed sig sv hm
  have hpair : verify_webhook env parsed sig sv hm = (false, parsedOrRaw parsed) := by
    cases hvv : verify_webhook env parsed sig sv hm with
    | mk a b =>
      rw [hvv] at hv hsnd
      simp only at hv hsnd
      rw [hv, hsnd]
  refine ⟨hpair, ?_, ?_, ?_⟩
  · unfold handle_payments_webhook
    rw [hpair]
    exact payments_webhook_fst_ignores_verified db (parsedOrRaw parsed) false true
  · unfold handle_payments_webhook
    rw [hpair]
    exact (payments_webhook_ack db (parsedOrRaw parsed) false).1
  · unfold handle_payments_webhook
    rw [hpair]
    exact (payments_webhook_ack db (parsedOrRaw parsed) false).2

/-- Witness for C5: with no secret configured the event is processed
unverified, with the same database effect as the verified case. -/
theorem C5_unverified_webhook_still_processed_witness :
    verify_webhook c5Env (some c5Event) none true true = (false, parsedOrRaw (some c5Event)) ∧
    (handle_payments_webhook c5Env (some c5Event) none true true [c5Txn]).1 =
      (payments_webhook [c5Txn] true (parsedOrRaw (some c5Event))).1 ∧
    (handle_payments_webhook c5Env (some c5Event) none true true [c5Txn]).2.verified = false ∧
    (handle_payments_webhook c5Env (some c5Event) none true true [c5Txn]).2.received = true :=
  C5_unverified_webhook_still_processed c5Env (some c5Event) none true true [c5Txn] (by decide)

/-- C6: the event-type mapping of `_map_stripe_event_to_status`
(`payment_intent.succeeded → succeeded`,
`payment_intent.payment_failed`/`charge.failed → failed`,
`charge.refunded → refunded`), the payment-intent lookup key
(`obj.id or obj.payment_intent`), and the missing-transaction outcome:
`payments_webhook` returns normally with action `transaction_not_found` and
an unchanged database — no error is raised to the caller. -/
theorem C6_event_mapping_and_missing_transaction
    (db : TxnDb) (e : StripeEvent) (v : Bool) :
    (e.type = some "payment_intent.succeeded" →
       (map_stripe_event_to_status e).2 = some TransactionStatus.succeeded) ∧
    ((e.type = some "payment_intent.payment_failed" ∨ e.type = some "charge.failed") →
       (map_stripe_event_to_status e).2 = some TransactionStatus.failed) ∧
    (e.type = some "charge.refunded" →
       (map_stripe_event_to_status e).2 = some TransactionStatus.refunded) ∧
    ((map_stripe_event_to_status e).1 = pyOrStr e.objId e.objPaymentIntent) ∧
    (∀ pid ns, map_stripe_event_to_status e = (some pid, ns) → pid ≠ "" →
       findTxnByIntent db pid = none →
       payments_webhook db v e =
         (db, { received := true, verified := v, action := some "transaction_not_found",
                transactionId := none, note := some "Processed webhook event" })) := by
  refine ⟨?_, ?_, ?_, rfl, ?_⟩
  · intro h
    unfold map_stripe_event_to_status
    rw [h]
    rfl
  · rintro (h | h) <;> (unfold map_stripe_event_to_status; rw [h]; rfl)
  · intro h
    unfold map_stripe_event_to_status
    rw [h]
    rfl
  · intro pid ns hmap hpid hfind
    unfold payments_webhook
    rw [hmap]
    have ht : pyTruthyStr (some pid) = true := by simp [pyTruthyStr, hpid]
    simp [ht, hfind]

/-- Witness for C6: the mapping sends the event to `succeeded`, and with an
empty transaction table the webhook acknowledges `transaction_not_found`
without error. -/
theorem C6_event_mapping_and_missing_transaction_witness :
    (map_stripe_event_to_status c6Event).2 = some TransactionStatus.succeeded ∧
    payments_webhook [] true c6Event =
      ([], { received := true, verified := true, action := some "transaction_not_found",
             transactionId := none, note := some "Processed webhook event" }) :=
  ⟨(C6_event_mapping_and_missing_transaction [] c6Event true).1 rfl,
   (C6_event_mapping_and_missing_transaction [] c6Event true).2.2.2.2 "pi_404"
     (some .succeeded) (by decide) (by decide) rfl⟩

/-- Updating a found offer row in place (id-keyed map): the lookup by the
same id afterwards returns the updated row. -/
theorem find_update_offers (offers : List Offer) (o o1 : Offer)
    (h : offers.find? (fun x => x.id == o.id) = some o) (hid : o1.id = o.id) :
    (offers.map (fun x => if x.id == o1.id then o1 else x)).find?
      (fun x => x.id == o.id) = some o1 := by
  induction offers with
  | nil => simp at h
  | cons a as ih =>
    simp only [List.find?_cons] at h
    simp only [List.map_cons, List.find?_cons]
    by_cases ha : a.id = o.id
    · have hb : (a.id == o.id) = true := by simp [ha]
      rw [hb] at h
      simp only [cond_true] at h
      have hao : a = o := Option.some.inj h
      subst hao
      have e1 : (a.id == o1.id) = true := by simp [hid, ha]
      rw [e1]
      simp only [if_true]
      have e2 : (o1.id == a.id) = true := by simp [hid, ha]
      rw [e2]
    · have hb : (a.id == o.id) = false := by simp [ha]
      rw [hb] at h
      simp only [cond_false] at h
      by_cases hq : a.id = o1.id
      · exact absurd (hq.trans hid) ha
      · have e1 : (a.id == o1.id) = false := by simp [hq]
        simp only [e1, Bool.false_eq_true, if_false, hb]
        exact ih h

/-- Updating a found negotiation row in place (id-keyed map): looking the
negotiation up by offer id afterwards returns the updated row, provided the
update keeps it pointing at that offer. -/
theorem find_update_negs (negs : List Negotiation) (n n1 : Negotiation) (oid : Nat)
    (h : negs.find? (fun x => x.offerId == oid) = some n)
    (hid : n1.id = n.id) (hoid : n1.offerId = oid) :
    (negs.map (fun x => if x.id == n1.id then n1 else x)).find?
      (fun x => x.offerId == oid) = some n1 := by
  induction negs with
  | nil => simp at h
  | cons a as ih =>
    simp only [List.find?_cons] at h
    simp only [List.map_cons, List.find?_cons]
    by_cases ha : a.offerId = oid
    · have hb : (a.offerId == oid) = true := by simp [ha]
      rw [hb] at h
      simp only [cond_true] at h
      have han : a = n := Option.some.inj h
      subst han
      have e1 : (a.id == n1.id) = true := by simp [hid]
      rw [e1]
      simp only [if_true]
      have e2 : (n1.offerId == oid) = true := by simp [hoid]
      rw [e2]
    · have hb : (a.offerId == oid) = false := by simp [ha]
      rw [hb] at h
      simp only [cond_false] at h
      by_cases hq : a.id = n1.id
      · have e1 : (a.id == n1.id) = true := by simp [hq]
        rw [e1]
        simp only [if_true]
        have e2 : (n1.offerId == oid) = true := by simp [hoid]
        rw [e2]
      · have e1 : (a.id == n1.id) = false := by simp [hq]
        simp only [e1, Bool.false_eq_true, if_false, hb]
        exact ih h

/-- Appending a row to a table in which the predicate had no match: the
lookup now returns the appended row (when it matches). -/
theorem find?_append_of_none {α : Type} (p : α → Bool) (l : List α) (x : α)
    (h : l.find? p = none) (hx : p x = true) : (l ++ [x]).find? p = some x := by
  induction l with
  | nil =>
    simp only [List.nil_append, List.find?_cons]
    rw [hx]
  | cons a as ih =>
    simp only [List.find?_cons] at h
    by_cases ha : p a = true
    · rw [ha] at h
      simp at h
    · have hb : p a = false := by simpa using ha
      rw [hb] at h
      simp only [cond_false] at h
      simp only [List.cons_append, List.find?_cons, hb, cond_false]
      exact ih h

/-- C10: for a pending offer, a post whose message is nonempty but consists
only of whitespace and carries no counter amount is not rejected as an empty
post: `if payload.message:` tests truthiness before stripping, so the
stripped-empty part still populates `note_parts`, the call succeeds, and the
negotiation's `last_message` becomes the empty string. -/
theorem C10_whitespace_message_posts_empty
    (db : MarketDb) (o : Offer) (l : Listing) (u : Nat) (m : String)
    (ho : findOffer db o.id = some o)
    (hl : findListing db o.listingId = some l)
    (hparty : u = o.buyerId ∨ u = l.sellerId)
    (hpend : o.status = .pending)
    (hm : m ≠ "") (hw : pyStrip m = "") :
    ∃ db1 neg, post_negotiation_for_offer db o.id u (some m) none = .ok (db1, neg) ∧
      neg.lastMessage = some "" ∧ neg.status = .open_ := by
  unfold post_negotiation_for_offer
  simp only [ho]
  simp only [hl]
  have hpb : (!(u == o.buyerId) && !(u == l.sellerId)) = false := by
    rcases hparty with h | h <;> simp [h]
  have hst : (!(o.status == OfferStatus.pending)) = false := by simp [hpend]
  have htm : pyTruthyStr (some m) = true := by simp [pyTruthyStr, hm]
  simp only [hpb, hst, htm, Bool.false_eq_true, if_false, if_true, eq_self_iff_true,
    Option.getD_some, hw, List.isEmpty_cons]
  unfold finishPost
  cases hneg : findNegotiationForOffer db o.id with
  | some neg => exact ⟨_, _, rfl, rfl, rfl⟩
  | none => exact ⟨_, _, rfl, rfl, rfl⟩

/-- Witness for C10: posting the three-space message on the pending offer
succeeds and records the empty string. -/
theorem C10_whitespace_message_posts_empty_witness :
    ∃ db1 neg, post_negotiation_for_offer c10Db 1 20 (some "   ") none = .ok (db1, neg) ∧
      neg.lastMessage = some "" ∧ neg.status = .open_ :=
  C10_whitespace_message_posts_empty c10Db
    { id := 1, amount := 80, status := .pending, listingId := 2, buyerId := 20 }
    { id := 2, sellerId := 10, status := .active, price := 100 }
    20 "   " (by decide) (by decide) (Or.inl rfl) rfl (by decide) (by decide)

/-- C2: on a pending offer, a counter with a positive amount by either party
succeeds — the buyer or seller through the negotiation-post counter, the
seller also through the counter endpoint.  The offer's amount is overwritten
in place (same id, still `pending`), the offers table does not grow (no new
offer), and a summary message is recorded on the offer's negotiation. -/
theorem C2_counter_by_either_party
    (db : MarketDb) (o : Offer) (l : Listing) (u : Nat) (a : Rat)
    (ho : findOffer db o.id = some o)
    (hl : findListing db o.listingId = some l)
    (hpend : o.status = .pending)
    (hpos : 0 < a)
    (hparty : u = o.buyerId ∨ u = l.sellerId) :
    (∃ db1 neg, post_negotiation_for_offer db o.id u none (some a) = .ok (db1, neg) ∧
       findOffer db1 o.id = some { o with amount := a } ∧
       db1.offers.length = db.offers.length ∧
       neg.status = .open_ ∧
       neg.lastMessage = some ("Countered to " ++ showAmount a) ∧
       findNegotiationForOffer db1 o.id = some neg) ∧
    (u = l.sellerId →
       ∃ db2 neg2, counter_offer db o.id u a = .ok (db2, { o with amount := a }) ∧
         findOffer db2 o.id = some { o with amount := a } ∧
         db2.offers.length = db.offers.length ∧
         neg2.lastMessage = some ("Seller countered to " ++ showAmount a) ∧
         findNegotiationForOffer db2 o.id = some neg2) := by
  have hng : ¬ a ≤ 0 := not_le.mpr hpos
  have hofind : findOffer (updateOffer db { o with amount := a }) o.id =
      some { o with amount := a } := by
    unfold findOffer updateOffer
    exact find_update_offers db.offers o _ ho rfl
  constructor
  · unfold post_negotiation_for_offer
    simp only [ho]
    simp only [hl]
    have hpb : (!(u == o.buyerId) && !(u == l.sellerId)) = false := by
      rcases hparty with h | h <;> simp [h]
    have hst : (!(o.status == OfferStatus.pending)) = false := by simp [hpend]
    simp only [hpb, hst, Bool.false_eq_true, if_false]
    simp only [pyTruthyStr, Bool.false_eq_true, if_false]
    rw [if_neg hng]
    unfold finishPost
    have hscr : findNegotiationForOffer (updateOffer db { o with amount := a })
        ({ o with amount := a } : Offer).id = findNegotiationForOffer db o.id := rfl
    rw [hscr]
    cases hneg : findNegotiationForOffer db o.id with
    | some neg =>
      have hneg' : db.negotiations.find? (fun n => n.offerId == o.id) = some neg := hneg
      have hno : neg.offerId = o.id := by
        have h1 := List.find?_some hneg'
        simpa using h1
      refine ⟨_, _, rfl, hofind, ?_, rfl, rfl, ?_⟩
      · simp [updateNegotiation, updateOffer]
      · exact find_update_negs db.negotiations neg _ o.id hneg rfl hno
    | none =>
      refine ⟨_, _, rfl, hofind, ?_, rfl, rfl, ?_⟩
      · simp [addNegotiation, updateOffer]
      · exact find?_append_of_none _ db.negotiations _ hneg (by simp)
  · intro hu
    unfold counter_offer ensure_can_modify_offer_as_seller
    simp only [ho]
    simp only [hl]
    have hsb : (!(l.sellerId == u)) = false := by simp [hu]
    have hnm : ¬ (o.status ∈ [OfferStatus.accepted, OfferStatus.rejected,
        OfferStatus.withdrawn, OfferStatus.expired]) := by
      rw [hpend]; decide
    simp only [hsb, Bool.false_eq_true, if_false]
    rw [if_neg hnm]
    simp only []
    rw [if_neg hng]
    cases hneg : findNegotiationForOffer db o.id with
    | some neg =>
      have hneg' : db.negotiations.find? (fun n => n.offerId == o.id) = some neg := hneg
      have hno : neg.offerId = o.id := by
        have h1 := List.find?_some hneg'
        simpa using h1
      refine ⟨_, ({ neg with lastMessage := some ("Seller countered to " ++ showAmount a) } : Negotiation), rfl, hofind, ?_, rfl, ?_⟩
      · simp [updateNegotiation, updateOffer]
      · exact find_update_negs db.negotiations neg _ o.id hneg rfl hno
    | none =>
      refine ⟨_, ({ id := freshNegId (updateOffer db ({ o with amount := a } : Offer)), status := .open_, lastMessage := some ("Seller countered to " ++ showAmount a), offerId := o.id, listingId := l.id } : Negotiation), rfl, hofind, ?_, rfl, ?_⟩
      · simp [addNegotiation, updateOffer]
      · exact find?_append_of_none _ db.negotiations _ hneg (by simp)

/-- Witness for C2: the buyer (20) counters to 70 through the negotiation
post; the seller (10) counters to 90 through the counter endpoint. -/
theorem C2_counter_by_either_party_witness :
    (∃ db1 neg, post_negotiation_for_offer c2Db c2Offer.id 20 none (some 70) = .ok (db1, neg) ∧
       findOffer db1 c2Offer.id = some { c2Offer with amount := 70 } ∧
       db1.offers.length = c2Db.offers.length ∧
       neg.status = .open_ ∧
       neg.lastMessage = some ("Countered to " ++ showAmount 70) ∧
       findNegotiationForOffer db1 c2Offer.id = some neg) ∧
    (∃ db2 neg2, counter_offer c2Db c2Offer.id 10 90 = .ok (db2, { c2Offer with amount := 90 }) ∧
       findOffer db2 c2Offer.id = some { c2Offer with amount := 90 } ∧
       db2.offers.length = c2Db.offers.length ∧
       neg2.lastMessage = some ("Seller countered to " ++ showAmount 90) ∧
       findNegotiationForOffer db2 c2Offer.id = some neg2) :=
  ⟨(C2_counter_by_either_party c2Db c2Offer c2Listing 20 70 rfl rfl rfl (by norm_num)
      (Or.inl rfl)).1,
   (C2_counter_by_either_party c2Db c2Offer c2Listing 10 90 rfl rfl rfl (by norm_num)
      (Or.inr rfl)).2 rfl⟩

/-- C3: on an offer whose status is terminal (`accepted`, `rejected`,
`withdrawn` or `expired`), every counter, accept, decline, and negotiation
post fails, for every acting user; since an error outcome carries no updated
database (the request rolls back), the offer's status and the negotiation's
`last_message` are unchanged, and no operation moves the offer out of its
terminal status.  For a party the failures are the 400 guard errors
(`NotModifiable` / `NotNegotiable`); the counter endpoint reports its 400
guard to the seller. -/
theorem C3_terminal_offers_frozen
    (db : MarketDb) (o : Offer) (l : Listing) (u : Nat) (amt : Rat)
    (msg : Option String) (camt : Option Rat)
    (ho : findOffer db o.id = some o)
    (hl : findListing db o.listingId = some l)
    (ht : o.status = .accepted ∨ o.status = .rejected ∨ o.status = .withdrawn ∨
          o.status = .expired) :
    (∃ e, counter_offer db o.id u amt = .error e) ∧
    (∃ e, accept_offer db o.id u = .error e) ∧
    (∃ e, decline_offer db o.id u = .error e) ∧
    (∃ e, post_negotiation_for_offer db o.id u msg camt = .error e) ∧
    ((u = o.buyerId ∨ u = l.sellerId) →
       accept_offer db o.id u = .error ⟨400, "Only pending offers can be accepted"⟩ ∧
       decline_offer db o.id u = .error ⟨400, "Only pending offers can be declined"⟩ ∧
       post_negotiation_for_offer db o.id u msg camt =
         .error ⟨400, "Offer is not negotiable in current status"⟩) ∧
    (u = l.sellerId →
       counter_offer db o.id u amt = .error ⟨400, "Offer is not modifiable in current status"⟩) := by
  have hnp : (o.status == OfferStatus.pending) = false := by
    rcases ht with h | h | h | h <;> simp [h]
  have hmem : o.status ∈ [OfferStatus.accepted, OfferStatus.rejected,
      OfferStatus.withdrawn, OfferStatus.expired] := by
    rcases ht with h | h | h | h <;> simp [h]
  refine ⟨?_, ?_, ?_, ?_, ?_, ?_⟩
  · by_cases hsb : l.sellerId = u
    · exact ⟨⟨400, "Offer is not modifiable in current status"⟩,
        by simp [counter_offer, ensure_can_modify_offer_as_seller, ho, hl, hsb, hmem]⟩
    · exact ⟨⟨403, "Only the seller can perform this action"⟩,
        by simp [counter_offer, ensure_can_modify_offer_as_seller, ho, hl, hsb]⟩
  · by_cases hbp : u = o.buyerId
    · exact ⟨⟨400, "Only pending offers can be accepted"⟩,
        by simp [accept_offer, ho, hl, hbp, hnp]⟩
    · by_cases hsp : u = l.sellerId
      · exact ⟨⟨400, "Only pending offers can be accepted"⟩,
          by simp [accept_offer, ho, hl, hsp, hnp]⟩
      · exact ⟨⟨403, "Not a party to this offer"⟩,
          by simp [accept_offer, ho, hl, hbp, hsp]⟩
  · by_cases hbp : u = o.buyerId
    · exact ⟨⟨400, "Only pending offers can be declined"⟩,
        by simp [decline_offer, ho, hl, hbp, hnp]⟩
    · by_cases hsp : u = l.sellerId
      · exact ⟨⟨400, "Only pending offers can be declined"⟩,
          by simp [decline_offer, ho, hl, hsp, hnp]⟩
      · exact ⟨⟨403, "Not a party to this offer"⟩,
          by simp [decline_offer, ho, hl, hbp, hsp]⟩
  · by_cases hbp : u = o.buyerId
    · exact ⟨⟨400, "Offer is not negotiable in current status"⟩,
        by simp [post_negotiation_for_offer, ho, hl, hbp, hnp]⟩
    · by_cases hsp : u = l.sellerId
      · exact ⟨⟨400, "Offer is not negotiable in current status"⟩,
          by simp [post_negotiation_for_offer, ho, hl, hsp, hnp]⟩
      · exact ⟨⟨403, "Not a party to this negotiation"⟩,
          by simp [post_negotiation_for_offer, ho, hl, hbp, hsp]⟩
  · intro hparty
    have hpb : (!(u == o.buyerId) && !(u == l.sellerId)) = false := by
      rcases hparty with h | h <;> simp [h]
    refine ⟨?_, ?_, ?_⟩
    · simp [accept_offer, ho, hl, hpb, hnp]
    · simp [decline_offer, ho, hl, hpb, hnp]
    · simp [post_negotiation_for_offer, ho, hl, hpb, hnp]
  · intro hu
    simp [counter_offer, ensure_can_modify_offer_as_seller, ho, hl, hu, hmem]

/-- Witness for C3: on the accepted offer, the buyer's decline fails with
the 400 guard and the seller's counter fails with the 400 guard. -/
theorem C3_terminal_offers_frozen_witness :
    (accept_offer c3Db c3Offer.id 20 = .error ⟨400, "Only pending offers can be accepted"⟩ ∧
     decline_offer c3Db c3Offer.id 20 = .error ⟨400, "Only pending offers can be declined"⟩ ∧
     post_negotiation_for_offer c3Db c3Offer.id 20 (some "hello") none =
       .error ⟨400, "Offer is not negotiable in current status"⟩) ∧
    counter_offer c3Db c3Offer.id 10 90 =
      .error ⟨400, "Offer is not modifiable in current status"⟩ :=
  ⟨(C3_terminal_offers_frozen c3Db c3Offer c3Listing 20 90 (some "hello") none rfl rfl
      (Or.inl rfl)).2.2.2.2.1 (Or.inl rfl),
   (C3_terminal_offers_frozen c3Db c3Offer c3Listing 10 90 (some "hello") none rfl rfl
      (Or.inl rfl)).2.2.2.2.2 rfl⟩

/-- C8: `checkout` fails with the 400 invalid-amount error for every
non-positive amount (when the listing reference, if any, resolves — an
unresolved listing id is reported first as 404 by the source's check order),
fails with 404 when a listing id is given but unresolved, converts the
decimal amount to minor units by `int(Decimal(amount) * 100)` — truncation
toward zero, which on the guarded positive range equals the floor — hands
that minor-unit integer and the lowercased currency to the payment-provider
capability, and persists a pending `Transaction` keyed by the provider's
returned payment-intent identifier. -/
theorem C8_checkout_validation_and_minor_units
    (db : TxnDb) (env : PaymentsEnv) (createIntent : Int → String → PaymentIntentResult)
    (userId : Nat) (listings : List Listing) (listingId : Option Nat)
    (amount : Rat) (currency : String) :
    (amount ≤ 0 →
       (listingId = none →
          checkout db env createIntent userId listings listingId amount currency =
            .error ⟨400, "Amount must be greater than 0"⟩) ∧
       (∀ i l, listingId = some i → listings.find? (fun x => x.id == i) = some l →
          checkout db env createIntent userId listings listingId amount currency =
            .error ⟨400, "Amount must be greater than 0"⟩)) ∧
    (∀ i, listingId = some i → listings.find? (fun x => x.id == i) = none →
       checkout db env createIntent userId listings listingId amount currency =
         .error ⟨404, "Listing not found"⟩) ∧
    (0 < amount → pyIntTrunc (amount * 100) = ⌊amount * 100⌋) ∧
    (0 < amount → listingId = none →
       ∃ txn resp,
         checkout db env createIntent userId listings none amount currency =
           .ok (db ++ [txn], resp) ∧
         txn.status = .pending ∧
         txn.providerPaymentIntentId =
           some ((createIntent (pyIntTrunc (amount * 100)) (pyLower currency)).paymentIntentId) ∧
         resp.paymentIntentId =
           (createIntent (pyIntTrunc (amount * 100)) (pyLower currency)).paymentIntentId ∧
         txn.amount = amount) ∧
    (0 < amount → ∀ i l, listingId = some i → listings.find? (fun x => x.id == i) = some l →
       ∃ txn resp,
         checkout db env createIntent userId listings (some i) amount currency =
           .ok (db ++ [txn], resp) ∧
         txn.status = .pending ∧
         txn.providerPaymentIntentId =
           some ((createIntent (pyIntTrunc (amount * 100)) (pyLower currency)).paymentIntentId) ∧
         txn.listingId = some l.id) := by
  refine ⟨?_, ?_, ?_, ?_, ?_⟩
  · intro hle
    constructor
    · intro hnone
      subst hnone
      unfold checkout checkout.checkoutAfterListing
      simp only []
      rw [if_pos hle]
    · intro i l hi hfl
      subst hi
      unfold checkout checkout.checkoutAfterListing
      simp only [hfl]
      rw [if_pos hle]
  · intro i hi hfl
    subst hi
    unfold checkout
    simp only [hfl]
  · intro hpos
    have h0 : 0 < amount * 100 := by positivity
    have hnum : 0 ≤ (amount * 100).num := Rat.num_nonneg.mpr h0.le
    unfold pyIntTrunc
    rw [if_pos hnum, Rat.floor_def, Int.ofNat_eq_natCast, Int.ofNat_tdiv,
      Int.toNat_of_nonneg hnum]
    exact Int.tdiv_eq_ediv hnum (Int.natCast_nonneg _)
  · intro hpos hnone
    have hng : ¬ amount ≤ 0 := not_le.mpr hpos
    unfold checkout checkout.checkoutAfterListing
    simp only []
    rw [if_neg hng]
    exact ⟨_, _, rfl, rfl, rfl, rfl, rfl⟩
  · intro hpos i l hi hfl
    have hng : ¬ amount ≤ 0 := not_le.mpr hpos
    unfold checkout checkout.checkoutAfterListing
    simp only [hfl]
    rw [if_neg hng]
    exact ⟨_, _, rfl, rfl, rfl, rfl⟩

/-- Witness for C8 at amount 12.99: truncation agrees with the floor on the
positive range, and checkout persists a pending transaction keyed by the
provider's intent id. -/
theorem C8_checkout_validation_and_minor_units_witness :
    pyIntTrunc ((1299 / 100 : Rat) * 100) = ⌊(1299 / 100 : Rat) * 100⌋ ∧
    (∃ txn resp,
       checkout [] c8Env c8Intent 20 [] none (1299 / 100) "USD" = .ok ([] ++ [txn], resp) ∧
       txn.status = .pending ∧
       txn.providerPaymentIntentId =
         some ((c8Intent (pyIntTrunc ((1299 / 100 : Rat) * 100)) (pyLower "USD")).paymentIntentId) ∧
       resp.paymentIntentId =
         (c8Intent (pyIntTrunc ((1299 / 100 : Rat) * 100)) (pyLower "USD")).paymentIntentId ∧
       txn.amount = 1299 / 100) :=
  ⟨(C8_checkout_validation_and_minor_units [] c8Env c8Intent 20 [] none (1299 / 100) "USD").2.2.1
     (by norm_num),
   (C8_checkout_validation_and_minor_units [] c8Env c8Intent 20 [] none (1299 / 100) "USD").2.2.2.1
     (by norm_num) rfl⟩

/-- A successful `findOffer` yields a member row whose id is the key. -/
theorem findOffer_mem {db : MarketDb} {i : Nat} {o : Offer}
    (h : findOffer db i = some o) : o ∈ db.offers ∧ o.id = i := by
  have h' : db.offers.find? (fun x => x.id == i) = some o := h
  refine ⟨List.mem_of_find?_eq_some h', ?_⟩
  have := List.find?_some h'
  simpa using this

/-- A successful `findNegotiationForOffer` yields a member row pointing at
the offer. -/
theorem findNeg_mem {db : MarketDb} {i : Nat} {n : Negotiation}
    (h : findNegotiationForOffer db i = some n) :
    n ∈ db.negotiations ∧ n.offerId = i := by
  have h' : db.negotiations.find? (fun x => x.offerId == i) = some n := h
  refine ⟨List.mem_of_find?_eq_some h', ?_⟩
  have := List.find?_some h'
  simpa using this

/-- Under the invariant, no stored closed negotiation points at a stored
pending offer. -/
theorem no_closed_neg_for_pending {db : MarketDb} (hInv : NegOfferInv db)
    {o : Offer} (ho : o ∈ db.offers) (hp : o.status = .pending)
    {n : Negotiation} (hn : n ∈ db.negotiations) (hoid : n.offerId = o.id) :
    n.status ≠ .closed :=
  fun hcl => hInv n hn hcl o ho hoid.symm hp

/-- Membership in an id-keyed offer update: the row is the replacement, or
an untouched row with a different id. -/
theorem mem_offers_update {offers : List Offer} {o1 x : Offer}
    (hx : x ∈ offers.map (fun y => if y.id == o1.id then o1 else y)) :
    x = o1 ∨ (x ∈ offers ∧ ¬ x.id = o1.id) := by
  rcases List.mem_map.1 hx with ⟨y, hy, he⟩
  by_cases h : y.id = o1.id
  · left
    rw [← he]
    simp [h]
  · right
    have hb : (y.id == o1.id) = false := by simp [h]
    rw [← he]
    simp only [hb, Bool.false_eq_true, if_false]
    exact ⟨hy, h⟩

/-- Membership in an id-keyed negotiation update: the row is the replacement
or an original row. -/
theorem mem_negs_update {negs : List Negotiation} {n1 x : Negotiation}
    (hx : x ∈ negs.map (fun y => if y.id == n1.id then n1 else y)) :
    x = n1 ∨ x ∈ negs := by
  rcases List.mem_map.1 hx with ⟨y, hy, he⟩
  by_cases h : (y.id == n1.id) = true
  · left
    rw [← he]
    simp [h]
  · right
    have hb : (y.id == n1.id) = false := by simpa using h
    rw [← he]
    simp only [hb, Bool.false_eq_true, if_false]
    exact hy

/-- A successful `counter_offer` preserves the negotiation-closure
invariant: the countered offer stays pending, and under the invariant its
negotiation (the only one whose message is rewritten) was not closed. -/
theorem counter_offer_preserves_inv (db : MarketDb) (oid uid : Nat) (amt : Rat)
    (db' : MarketDb) (r : Offer) (hInv : NegOfferInv db)
    (h : counter_offer db oid uid amt = .ok (db', r)) : NegOfferInv db' := by
  unfold counter_offer ensure_can_modify_offer_as_seller at h
  cases hfo : findOffer db oid with
  | none => rw [hfo] at h; exact Except.noConfusion h
  | some o =>
    rw [hfo] at h
    simp only [] at h
    cases hfl : findListing db o.listingId with
    | none => rw [hfl] at h; exact Except.noConfusion h
    | some l =>
      rw [hfl] at h
      simp only [] at h
      by_cases hsb : (!(l.sellerId == uid)) = true
      · rw [if_pos hsb] at h; exact Except.noConfusion h
      · rw [if_neg hsb] at h
        by_cases hmem : o.status ∈ [OfferStatus.accepted, OfferStatus.rejected,
            OfferStatus.withdrawn, OfferStatus.expired]
        · rw [if_pos hmem] at h; exact Except.noConfusion h
        · rw [if_neg hmem] at h
          simp only [] at h
          by_cases hle : amt ≤ 0
          · rw [if_pos hle] at h; exact Except.noConfusion h
          · rw [if_neg hle] at h
            have hpend : o.status = .pending := by
              cases hs : o.status
              · rfl
              all_goals (exfalso; apply hmem; rw [hs]; decide)
            obtain ⟨homem, hoid⟩ := findOffer_mem hfo
            cases hneg : findNegotiationForOffer db o.id with
            | some neg =>
              rw [hneg] at h
              simp only [Except.ok.injEq, Prod.mk.injEq] at h
              obtain ⟨h1, h2⟩ := h
              subst h1
              obtain ⟨hnegmem, hnegoid⟩ := findNeg_mem hneg
              intro n' hn' hcl' o' ho' hid' hps
              rcases mem_negs_update hn' with rfl | hn2
              · exact no_closed_neg_for_pending hInv homem hpend hnegmem hnegoid hcl'
              · rcases mem_offers_update ho' with rfl | ⟨homem', hne⟩
                · exact no_closed_neg_for_pending hInv homem hpend hn2 hid'.symm hcl'
                · exact hInv n' hn2 hcl' o' homem' hid' hps
            | none =>
              rw [hneg] at h
              simp only [Except.ok.injEq, Prod.mk.injEq] at h
              obtain ⟨h1, h2⟩ := h
              subst h1
              intro n' hn' hcl' o' ho' hid' hps
              rcases List.mem_append.1 hn' with hn2 | hn2
              · rcases mem_offers_update ho' with rfl | ⟨homem', hne⟩
                · exact no_closed_neg_for_pending hInv homem hpend hn2 hid'.symm hcl'
                · exact hInv n' hn2 hcl' o' homem' hid' hps
              · have hnew := List.mem_singleton.1 hn2
                subst hnew
                exact NegotiationStatus.noConfusion hcl'

/-- A successful `accept_offer` preserves the negotiation-closure
invariant: the offer leaves `pending` in the same step that closes its
negotiation. -/
theorem accept_offer_preserves_inv (db : MarketDb) (oid uid : Nat)
    (db' : MarketDb) (r : Offer) (hInv : NegOfferInv db)
    (h : accept_offer db oid uid = .ok (db', r)) : NegOfferInv db' := by
  unfold accept_offer at h
  cases hfo : findOffer db oid with
  | none => rw [hfo] at h; exact Except.noConfusion h
  | some o =>
    rw [hfo] at h
    simp only [] at h
    cases hfl : findListing db o.listingId with
    | none => rw [hfl] at h; exact Except.noConfusion h
    | some l =>
      rw [hfl] at h
      simp only [] at h
      by_cases hpb : (!(uid == o.buyerId) && !(uid == l.sellerId)) = true
      · rw [if_pos hpb] at h; exact Except.noConfusion h
      · rw [if_neg hpb] at h
        by_cases hsp : (!(o.status == OfferStatus.pending)) = true
        · rw [if_pos hsp] at h; exact Except.noConfusion h
        · rw [if_neg hsp] at h
          obtain ⟨homem, hoid⟩ := findOffer_mem hfo
          cases hneg : findNegotiationForOffer db o.id with
          | some neg =>
            rw [hneg] at h
            simp only [Except.ok.injEq, Prod.mk.injEq] at h
            obtain ⟨h1, h2⟩ := h
            subst h1
            intro n' hn' hcl' o' ho' hid' hps
            rcases mem_offers_update ho' with rfl | ⟨homem', hne⟩
            · exact OfferStatus.noConfusion hps
            · rcases mem_negs_update hn' with rfl | hn2
              · obtain ⟨hnegmem, hnegoid⟩ := findNeg_mem hneg
                exact hne (hid'.trans hnegoid)
              · exact hInv n' hn2 hcl' o' homem' hid' hps
          | none =>
            rw [hneg] at h
            simp only [Except.ok.injEq, Prod.mk.injEq] at h
            obtain ⟨h1, h2⟩ := h
            subst h1
            intro n' hn' hcl' o' ho' hid' hps
            rcases mem_offers_update ho' with rfl | ⟨homem', hne⟩
            · exact OfferStatus.noConfusion hps
            · exact hInv n' hn' hcl' o' homem' hid' hps

/-- A successful `decline_offer` preserves the negotiation-closure
invariant, symmetrically to acceptance. -/
theorem decline_offer_preserves_inv (db : MarketDb) (oid uid : Nat)
    (db' : MarketDb) (r : Offer) (hInv : NegOfferInv db)
    (h : decline_offer db oid uid = .ok (db', r)) : NegOfferInv db' := by
  unfold decline_offer at h
  cases hfo : findOffer db oid with
  | none => rw [hfo] at h; exact Except.noConfusion h
  | some o =>
    rw [hfo] at h
    simp only [] at h
    cases hfl : findListing db o.listingId with
    | none => rw [hfl] at h; exact Except.noConfusion h
    | some l =>
      rw [hfl] at h
      simp only [] at h
      by_cases hpb : (!(uid == o.buyerId) && !(uid == l.sellerId)) = true
      · rw [if_pos hpb] at h; exact Except.noConfusion h
      · rw [if_neg hpb] at h
        by_cases hsp : (!(o.status == OfferStatus.pending)) = true
        · rw [if_pos hsp] at h; exact Except.noConfusion h
        · rw [if_neg hsp] at h
          obtain ⟨homem, hoid⟩ := findOffer_mem hfo
          cases hneg : findNegotiationForOffer db o.id with
          | some neg =>
            rw [hneg] at h
            simp only [Except.ok.injEq, Prod.mk.injEq] at h
            obtain ⟨h1, h2⟩ := h
            subst h1
            intro n' hn' hcl' o' ho' hid' hps
            rcases mem_offers_update ho' with rfl | ⟨homem', hne⟩
            · exact OfferStatus.noConfusion hps
            · rcases mem_negs_update hn' with rfl | hn2
              · obtain ⟨hnegmem, hnegoid⟩ := findNeg_mem hneg
                exact hne (hid'.trans hnegoid)
              · exact hInv n' hn2 hcl' o' homem' hid' hps
          | none =>
            rw [hneg] at h
            simp only [Except.ok.injEq, Prod.mk.injEq] at h
            obtain ⟨h1, h2⟩ := h
            subst h1
            intro n' hn' hcl' o' ho' hid' hps
            rcases mem_offers_update ho' with rfl | ⟨homem', hne⟩
            · exact OfferStatus.noConfusion hps
            · exact hInv n' hn' hcl' o' homem' hid' hps

/-- A successful `post_negotiation_for_offer` preserves the
negotiation-closure invariant: it requires a pending offer, and every
negotiation row it writes has status `open`. -/
theorem post_negotiation_preserves_inv (db : MarketDb) (oid uid : Nat)
    (msg : Option String) (camt : Option Rat)
    (db' : MarketDb) (rn : Negotiation) (hInv : NegOfferInv db)
    (h : post_negotiation_for_offer db oid uid msg camt = .ok (db', rn)) :
    NegOfferInv db' := by
  unfold post_negotiation_for_offer finishPost at h
  cases hfo : findOffer db oid with
  | none => rw [hfo] at h; exact Except.noConfusion h
  | some o =>
    rw [hfo] at h
    simp only [] at h
    cases hfl : findListing db o.listingId with
    | none => rw [hfl] at h; exact Except.noConfusion h
    | some l =>
      rw [hfl] at h
      simp only [] at h
      by_cases hpb : (!(uid == o.buyerId) && !(uid == l.sellerId)) = true
      · rw [if_pos hpb] at h; exact Except.noConfusion h
      · rw [if_neg hpb] at h
        by_cases hsp : (!(o.status == OfferStatus.pending)) = true
        · rw [if_pos hsp] at h; exact Except.noConfusion h
        · rw [if_neg hsp] at h
          have hpend : o.status = .pending := by
            have hb : (o.status == OfferStatus.pending) = true := by
              cases hb2 : (o.status == OfferStatus.pending)
              · exact absurd (by rw [hb2]; rfl) hsp
              · rfl
            simpa using hb
          obtain ⟨homem, hoid⟩ := findOffer_mem hfo
          cases camt with
          | some c =>
            simp only [] at h
            by_cases hle : c ≤ 0
            · rw [if_pos hle] at h; exact Except.noConfusion h
            · rw [if_neg hle] at h
              have hscr : findNegotiationForOffer
                  (updateOffer db ({ o with amount := c } : Offer)) o.id =
                  findNegotiationForOffer db o.id := rfl
              rw [hscr] at h
              cases hneg : findNegotiationForOffer db o.id with
              | some neg =>
                rw [hneg] at h
                simp only [Except.ok.injEq, Prod.mk.injEq] at h
                obtain ⟨h1, h2⟩ := h
                subst h1
                intro n' hn' hcl' o' ho' hid' hps
                rcases mem_negs_update hn' with rfl | hn2
                · exact NegotiationStatus.noConfusion hcl'
                · rcases mem_offers_update ho' with rfl | ⟨homem', hne⟩
                  · exact no_closed_neg_for_pending hInv homem hpend hn2 hid'.symm hcl'
                  · exact hInv n' hn2 hcl' o' homem' hid' hps
              | none =>
                rw [hneg] at h
                simp only [Except.ok.injEq, Prod.mk.injEq] at h
                obtain ⟨h1, h2⟩ := h
                subst h1
                intro n' hn' hcl' o' ho' hid' hps
                rcases List.mem_append.1 hn' with hn2 | hn2
                · rcases mem_offers_update ho' with rfl | ⟨homem', hne⟩
                  · exact no_closed_neg_for_pending hInv homem hpend hn2 hid'.symm hcl'
                  · exact hInv n' hn2 hcl' o' homem' hid' hps
                · have hnew := List.mem_singleton.1 hn2
                  subst hnew
                  exact NegotiationStatus.noConfusion hcl'
          | none =>
            simp only [] at h
            by_cases hni : (if pyTruthyStr msg = true
                then [pyStrip (msg.getD "")] else []).isEmpty = true
            · rw [if_pos hni] at h; exact Except.noConfusion h
            · rw [if_neg hni] at h
              cases hneg : findNegotiationForOffer db o.id with
              | some neg =>
                rw [hneg] at h
                simp only [Except.ok.injEq, Prod.mk.injEq] at h
                obtain ⟨h1, h2⟩ := h
                subst h1
                intro n' hn' hcl' o' ho' hid' hps
                rcases mem_negs_update hn' with rfl | hn2
                · exact NegotiationStatus.noConfusion hcl'
                · exact hInv n' hn2 hcl' o' ho' hid' hps
              | none =>
                rw [hneg] at h
                simp only [Except.ok.injEq, Prod.mk.injEq] at h
                obtain ⟨h1, h2⟩ := h
                subst h1
                intro n' hn' hcl' o' ho' hid' hps
                rcases List.mem_append.1 hn' with hn2 | hn2
                · exact hInv n' hn2 hcl' o' ho' hid' hps
                · have hnew := List.mem_singleton.1 hn2
                  subst hnew
                  exact NegotiationStatus.noConfusion hcl'

/-- `create_offer_for_listing` trivially preserves the invariant — in this
code base it never succeeds (see the active-listing guard). -/
theorem create_offer_preserves_inv (db : MarketDb) (lid uid : Nat) (amt : Rat)
    (db' : MarketDb) (r : Offer) (_hInv : NegOfferInv db)
    (h : create_offer_for_listing db lid uid amt = .ok (db', r)) : NegOfferInv db' := by
  obtain ⟨e, he⟩ := create_offer_always_errors db lid uid amt
  rw [he] at h
  exact Except.noConfusion h

/-- Under the invariant, a closed negotiation's offer is no longer pending,
so a negotiation post is rejected (for a party: by the 400 `NotNegotiable`
guard) before the `status = open` reopening assignment is reached. -/
theorem post_blocked_on_closed (db : MarketDb) (oid uid : Nat)
    (msg : Option String) (camt : Option Rat) (o : Offer) (n : Negotiation)
    (hInv : NegOfferInv db)
    (ho : findOffer db oid = some o)
    (hn : findNegotiationForOffer db oid = some n)
    (hcl : n.status = .closed) :
    (∃ e, post_negotiation_for_offer db oid uid msg camt = .error e) ∧
    (∀ l, findListing db o.listingId = some l → (uid = o.buyerId ∨ uid = l.sellerId) →
       post_negotiation_for_offer db oid uid msg camt =
         .error ⟨400, "Offer is not negotiable in current status"⟩) := by
  obtain ⟨homem, hoid⟩ := findOffer_mem ho
  obtain ⟨hnmem, hnoid⟩ := findNeg_mem hn
  have hnp : o.status ≠ .pending := by
    intro hp
    exact no_closed_neg_for_pending hInv homem hp hnmem (by rw [hnoid, hoid]) hcl
  have hb : (o.status == OfferStatus.pending) = false := by
    cases hq : (o.status == OfferStatus.pending)
    · rfl
    · exact absurd (by simpa using hq) hnp
  have hoo : findOffer db oid = some o := ho
  constructor
  · cases hfl : findListing db o.listingId with
    | none =>
      exact ⟨⟨404, "Listing not found"⟩,
        by simp [post_negotiation_for_offer, hoo, hfl]⟩
    | some l =>
      by_cases hbp : uid = o.buyerId
      · exact ⟨⟨400, "Offer is not negotiable in current status"⟩,
          by simp [post_negotiation_for_offer, hoo, hfl, hbp, hb]⟩
      · by_cases hsp : uid = l.sellerId
        · exact ⟨⟨400, "Offer is not negotiable in current status"⟩,
            by simp [post_negotiation_for_offer, hoo, hfl, hsp, hb]⟩
        · exact ⟨⟨403, "Not a party to this negotiation"⟩,
            by simp [post_negotiation_for_offer, hoo, hfl, hbp, hsp]⟩
  · intro l hl hparty
    have hpb : (!(uid == o.buyerId) && !(uid == l.sellerId)) = false := by
      rcases hparty with h | h <;> simp [h]
    simp [post_negotiation_for_offer, hoo, hl, hpb, hb]

/-- C9: the negotiation-closure invariant (a closed negotiation's offer is
not pending) is preserved by every operation — offer creation, counter,
accept, decline, and negotiation post — and under it a closed negotiation is
never reopened: the negotiation post, the one operation that assigns
`status = open`, fails on a closed negotiation's offer with the 400
`NotNegotiable` guard (for a party; a non-party fails even earlier), so its
reopening assignment is unreachable. -/
theorem C9_closed_negotiation_never_reopened :
    (∀ db lid uid amt db' r, NegOfferInv db →
       create_offer_for_listing db lid uid amt = .ok (db', r) → NegOfferInv db') ∧
    (∀ db oid uid amt db' r, NegOfferInv db →
       counter_offer db oid uid amt = .ok (db', r) → NegOfferInv db') ∧
    (∀ db oid uid db' r, NegOfferInv db →
       accept_offer db oid uid = .ok (db', r) → NegOfferInv db') ∧
    (∀ db oid uid db' r, NegOfferInv db →
       decline_offer db oid uid = .ok (db', r) → NegOfferInv db') ∧
    (∀ db oid uid msg camt db' rn, NegOfferInv db →
       post_negotiation_for_offer db oid uid msg camt = .ok (db', rn) → NegOfferInv db') ∧
    (∀ db oid uid msg camt o n, NegOfferInv db →
       findOffer db oid = some o → findNegotiationForOffer db oid = some n →
       n.status = .closed →
       (∃ e, post_negotiation_for_offer db oid uid msg camt = .error e) ∧
       (∀ l, findListing db o.listingId = some l → (uid = o.buyerId ∨ uid = l.sellerId) →
          post_negotiation_for_offer db oid uid msg camt =
            .error ⟨400, "Offer is not negotiable in current status"⟩)) :=
  ⟨fun db lid uid amt db' r hI h => create_offer_preserves_inv db lid uid amt db' r hI h,
   fun db oid uid amt db' r hI h => counter_offer_preserves_inv db oid uid amt db' r hI h,
   fun db oid uid db' r hI h => accept_offer_preserves_inv db oid uid db' r hI h,
   fun db oid uid db' r hI h => decline_offer_preserves_inv db oid uid db' r hI h,
   fun db oid uid msg camt db' rn hI h =>
     post_negotiation_preserves_inv db oid uid msg camt db' rn hI h,
   fun db oid uid msg camt o n hI ho hn hcl =>
     post_blocked_on_closed db oid uid msg camt o n hI ho hn hcl⟩

/-- The invariant holds of C9's witness state. -/
theorem c9Db_inv : NegOfferInv c9Db := by
  unfold NegOfferInv
  decide

/-- Witness for C9: the buyer's post on the closed negotiation's offer fails
with the 400 guard, leaving the negotiation closed. -/
theorem C9_closed_negotiation_never_reopened_witness :
    post_negotiation_for_offer c9Db 1 20 (some "hi") none =
      .error ⟨400, "Offer is not negotiable in current status"⟩ :=
  ((C9_closed_negotiation_never_reopened.2.2.2.2.2 c9Db 1 20 (some "hi") none c9Offer c9Neg
      c9Db_inv rfl rfl rfl).2 c9Listing rfl (Or.inl rfl))
